import Mathlib

unseal Rat.add Rat.sub Rat.mul Rat.inv Rat.ofScientific

/-!
# Verification of the Smart Surveillance System detection-and-alert core

Shallow embedding of the core pipeline of
`complete_surveillance_system_fixed.py`: the threat evaluator
(`has_threats`), the alert dispatcher (`handle_threat_detection` with its
weapon-confirmation debounce and per-category cooldowns), the per-frame
persistence cache with its expiry sweep, the single-slot asynchronous
inference scheduling of `video_loop`, and the email dispatch control flow
of `send_email_alert`.

Timestamps and confidences are modelled as exact rationals (`ℚ`); Python
floats only ever enter these code paths through comparisons, so the exact
model preserves every boundary decision.  Side effects (database logging,
beeps, emails) are modelled as event lists so that "no side effect" is a
provable equation.
-/

namespace Surveillance

/-- A detection produced by the weapon / person detector: only the
confidence is consumed by the threat logic. -/
structure Detection where
  confidence : ℚ
deriving DecidableEq

/-- A face-emotion analysis result: dominant emotion label and its
confidence, as in `results['faces']` entries. -/
structure Face where
  dominant : String
  confidence : ℚ
deriving DecidableEq

/-- The per-cycle detection bundle `results` with keys
`'weapons'`, `'people'`, `'faces'`. -/
structure Results where
  weapons : List Detection
  people : List Detection
  faces : List Face
deriving DecidableEq

/-- The empty bundle: every detector returned nothing. -/
def emptyResults : Results := ⟨[], [], []⟩

/-- `face['dominant'] in ['angry', 'fear']` — the suspicious-emotion test. -/
def suspiciousEmotion (f : Face) : Bool :=
  f.dominant = "angry" || f.dominant = "fear"

/-- `has_threats(results)` from the source: weapons present, or more than 5
people, or some face with a suspicious dominant emotion and confidence
strictly above `0.7`. -/
def has_threats (r : Results) : Bool :=
  decide (r.weapons.length > 0) ||
  decide (r.people.length > 5) ||
  r.faces.any (fun f => suspiciousEmotion f && decide (f.confidence > (0.7 : ℚ)))

/-- The weapon-confirmation debounce state `self._weapon_confirm`
(`{'count': 0, 'last_time': 0}` initially). -/
structure WeaponConfirm where
  count : Nat
  last_time : ℚ
deriving DecidableEq

/-- The per-category `self.last_alert_time` dictionary; a missing key is
`none`. -/
structure AlertTimes where
  weapon : Option ℚ
  crowd : Option ℚ
  behavior : Option ℚ
deriving DecidableEq

/-- The mutable dispatcher state threaded through
`handle_threat_detection`. -/
structure SysState where
  weapon_confirm : WeaponConfirm
  last_alert_time : AlertTimes
  alert_cooldown : ℚ
deriving DecidableEq

/-- The freshly initialised dispatcher state of
`CompleteSurveillanceSystem.__init__`: `alert_cooldown = 2`, empty
`last_alert_time`, `_weapon_confirm = {'count': 0, 'last_time': 0}`. -/
def initState : SysState :=
  { weapon_confirm := ⟨0, 0⟩
    last_alert_time := ⟨none, none, none⟩
    alert_cooldown := 2 }

/-- The three alert categories the dispatcher knows. -/
inductive Category
  | weapon
  | crowd
  | behavior
deriving DecidableEq

/-- Observable side effects of one dispatch: a `log_detection` call, a
beep (`play_beep_sound` + `mark_beep_played`), and a `send_email_alert`
call, each tagged with its category. -/
inductive Event
  | log_detection (category : Category)
  | play_beep (category : Category)
  | send_email (category : Category)
deriving DecidableEq

/-- The category an event belongs to. -/
def Event.category : Event → Category
  | .log_detection c => c
  | .play_beep c => c
  | .send_email c => c

/-- The events one dispatched alert of category `c` fires, in source
order: database log, beep, email. -/
def dispatchEvents (c : Category) : List Event :=
  [Event.log_detection c, Event.play_beep c, Event.send_email c]

/-- The events of a given category inside an event trace. -/
def categoryEvents (c : Category) (evs : List Event) : List Event :=
  evs.filter (fun e => e.category = c)

/-- The cooldown gate
`'cat' not in self.last_alert_time or current_time - self.last_alert_time['cat'] > self.alert_cooldown`. -/
def cooldown_ok (last : Option ℚ) (now cooldown : ℚ) : Bool :=
  match last with
  | none => true
  | some t => decide (now - t > cooldown)

/-- The weapon-confirmation update performed on every cycle whose bundle
contains a weapon: reset the count to 0 if more than 2.0 s passed since
`last_time`, then increment the count and stamp `last_time := now`. -/
def weaponStep (wc : WeaponConfirm) (now : ℚ) : WeaponConfirm :=
  let wc := if now - wc.last_time > 2 then { wc with count := 0 } else wc
  { count := wc.count + 1, last_time := now }

/-- The weapon block of `handle_threat_detection`: debounce update, then
dispatch when the confirmation count reaches 2 and the weapon cooldown has
elapsed; on dispatch `last_alert_time['weapon'] := now` and the
confirmation count is reset to 0. -/
def weaponBranch (s : SysState) (r : Results) (now : ℚ) : SysState × List Event :=
  if r.weapons.length ≠ 0 then
    let wc := weaponStep s.weapon_confirm now
    let s1 := { s with weapon_confirm := wc }
    if wc.count ≥ 2 then
      if cooldown_ok s1.last_alert_time.weapon now s1.alert_cooldown then
        ({ s1 with
            last_alert_time := { s1.last_alert_time with weapon := some now }
            weapon_confirm := { wc with count := 0 } },
         dispatchEvents Category.weapon)
      else (s1, [])
    else (s1, [])
  else (s, [])

/-- The crowd block of `handle_threat_detection`: dispatch when
`len(results['people']) > 5` and the crowd cooldown has elapsed; on
dispatch `last_alert_time['crowd'] := now`. -/
def crowdBranch (s : SysState) (r : Results) (now : ℚ) : SysState × List Event :=
  if r.people.length > 5 then
    if cooldown_ok s.last_alert_time.crowd now s.alert_cooldown then
      ({ s with last_alert_time := { s.last_alert_time with crowd := some now } },
       dispatchEvents Category.crowd)
    else (s, [])
  else (s, [])

/-- `suspicious_faces`: faces whose dominant emotion is angry or fear with
confidence strictly above `0.8` (the dispatcher's gate, stricter than the
`0.7` of `has_threats`). -/
def suspicious_faces (r : Results) : List Face :=
  r.faces.filter (fun f => suspiciousEmotion f && decide (f.confidence > (0.8 : ℚ)))

/-- The behavior block of `handle_threat_detection`: dispatch when some
suspicious face (confidence > 0.8) is present and the behavior cooldown
has elapsed; on dispatch `last_alert_time['behavior'] := now`. -/
def behaviorBranch (s : SysState) (r : Results) (now : ℚ) : SysState × List Event :=
  if (suspicious_faces r).length ≠ 0 then
    if cooldown_ok s.last_alert_time.behavior now s.alert_cooldown then
      ({ s with last_alert_time := { s.last_alert_time with behavior := some now } },
       dispatchEvents Category.behavior)
    else (s, [])
  else (s, [])

/-- `handle_threat_detection(results, frame)` at time `now`: the weapon,
crowd and behavior blocks run in source order, threading the dispatcher
state and concatenating their side-effect traces. -/
def handle_threat_detection (s : SysState) (r : Results) (now : ℚ) :
    SysState × List Event :=
  let w := weaponBranch s r now
  let c := crowdBranch w.1 r now
  let b := behaviorBranch c.1 r now
  (b.1, w.2 ++ c.2 ++ b.2)

/-! ## Persistence cache (`persistent_detections` / `detection_timestamps`)

The source keeps, per detection kind, two parallel lists: the detections
and their insertion timestamps, and keeps exactly the indices with
`current_time - timestamp < self.box_lifetime`.  We model a kind's cache
as the zip of the two lists: a list of `(payload, created_at)` entries. -/

/-- The per-kind expiry sweep of `video_loop`: keep an entry exactly when
`now - created_at < lifetime` (so it is removed exactly when
`now - created_at ≥ lifetime`). -/
def purgeKind {α : Type} (entries : List (α × ℚ)) (now lifetime : ℚ) :
    List (α × ℚ) :=
  entries.filter (fun e => decide (now - e.2 < lifetime))

/-- The three-kind persistence cache
(`{'weapons': [...], 'people': [...], 'faces': [...]}` zipped with
`detection_timestamps`). -/
structure Cache where
  weapons : List (Detection × ℚ)
  people : List (Detection × ℚ)
  faces : List (Face × ℚ)
deriving DecidableEq

/-- The whole per-frame sweep: every kind is purged with the same `now`
and `box_lifetime`. -/
def purgeCache (c : Cache) (now lifetime : ℚ) : Cache :=
  { weapons := purgeKind c.weapons now lifetime
    people := purgeKind c.people now lifetime
    faces := purgeKind c.faces now lifetime }

/-- The rendered snapshot of one kind (`display_results` takes a copy of
the purged detection lists, dropping the timestamps). -/
def snapshotKind {α : Type} (entries : List (α × ℚ)) : List α :=
  entries.map Prod.fst

/-! ## Asynchronous inference scheduling of `video_loop`

Each loop iteration is driven by the poll result of the single
`inference_future` slot: not yet done, done with a result, or done with
an exception (the `finally` clears the slot in both done cases). -/

/-- What `.done()` / `.result()` report about the outstanding future this
iteration (irrelevant when no future is outstanding). -/
inductive JobPoll
  | notDone
  | doneOk
  | doneError
deriving DecidableEq

/-- The scheduler state of `video_loop`: the frame counter, the
`inference_future` slot, and a ghost count of submitted-but-unfinished
inference jobs. -/
structure LoopState where
  frame_count : Nat
  inference_future : Option Unit
  outstanding : Nat
deriving DecidableEq

/-- `self.detection_interval = 4` from `__init__`. -/
def detection_interval : Nat := 4

/-- Initial loop state: `frame_count = 0`, no outstanding future. -/
def initLoop : LoopState := ⟨0, none, 0⟩

/-- The collection phase: if a future is outstanding and done (with a
result or an exception), its result is consumed or discarded and the
slot is cleared (`finally: self.inference_future = None`). -/
def collectPhase (s : LoopState) (p : JobPoll) : LoopState :=
  match s.inference_future, p with
  | some _, JobPoll.doneOk =>
      { s with inference_future := none, outstanding := s.outstanding - 1 }
  | some _, JobPoll.doneError =>
      { s with inference_future := none, outstanding := s.outstanding - 1 }
  | _, _ => s

/-- The submission phase: a new job is submitted to the single-worker
executor only when the slot is empty (`if self.inference_future is None`). -/
def submitPhase (s : LoopState) : LoopState :=
  match s.inference_future with
  | none => { s with inference_future := some (), outstanding := s.outstanding + 1 }
  | some _ => s

/-- One `video_loop` iteration: on detection ticks
(`frame_count % detection_interval == 0`) collect a finished job, then
submit a new one if the slot is free; the frame counter always advances. -/
def loopTick (s : LoopState) (p : JobPoll) : LoopState :=
  let s1 :=
    if s.frame_count % detection_interval = 0 then submitPhase (collectPhase s p)
    else s
  { s1 with frame_count := s1.frame_count + 1 }

/-- A run of the loop from the initial state over a sequence of poll
outcomes. -/
def runLoop (polls : List JobPoll) : LoopState :=
  polls.foldl loopTick initLoop

/-! ## Email dispatch control flow (`send_email_alert`)

The background `send_email` closure resolves sender credentials, and then
either bails out early (no sender, no app password), fails at
`server.login` (authentication error or other login error), fails at
`server.sendmail` (transport error caught by the outer handler), or
succeeds.  Whether `db_manager.mark_email_sent` is called and whether
`stats['emails_sent']` is incremented are the observable effects. -/

/-- Outcome of `server.login(sender_email, sender_password)`. -/
inductive LoginResult
  | ok
  | authError
  | otherError
deriving DecidableEq

/-- The environment one email attempt runs against: the resolved sender
credentials and the behaviour of the SMTP collaborator. -/
structure EmailEnv where
  sender_email : String
  sender_password : String
  login : LoginResult
  sendmail_ok : Bool
deriving DecidableEq

/-- How one email attempt ended. -/
inductive EmailOutcome
  | sent
  | noSender
  | noPassword
  | authFailed
  | loginError
  | transportError
deriving DecidableEq

/-- Observable effects of one email attempt: its outcome, whether
`mark_email_sent(detection_id)` (which sets `email_sent = TRUE` in the
detections table) was called, and whether `stats['emails_sent']` was
incremented. -/
structure EmailEffects where
  outcome : EmailOutcome
  marked_email_sent : Bool
  stats_incremented : Bool
deriving DecidableEq

/-- The control flow of the `send_email` closure in `send_email_alert`:
missing sender or missing password bail out early but still call
`mark_email_sent`; `SMTPAuthenticationError` and other login errors are
caught, logged and also call `mark_email_sent`; only a successful
`sendmail` reaches the `stats['emails_sent'] += 1` line; a `sendmail`
failure falls to the outer handler, which does not call
`mark_email_sent`. -/
def send_email (env : EmailEnv) : EmailEffects :=
  if env.sender_email = "" then
    ⟨EmailOutcome.noSender, true, false⟩
  else if env.sender_password = "" then
    ⟨EmailOutcome.noPassword, true, false⟩
  else
    match env.login with
    | LoginResult.authError => ⟨EmailOutcome.authFailed, true, false⟩
    | LoginResult.otherError => ⟨EmailOutcome.loginError, true, false⟩
    | LoginResult.ok =>
        if env.sendmail_ok then ⟨EmailOutcome.sent, true, true⟩
        else ⟨EmailOutcome.transportError, false, false⟩

/-! ## Helper lemmas -/

theorem categoryEvents_append (c : Category) (a b : List Event) :
    categoryEvents c (a ++ b) = categoryEvents c a ++ categoryEvents c b :=
  List.filter_append _ _

theorem categoryEvents_dispatchEvents (c c' : Category) :
    categoryEvents c (dispatchEvents c') =
      if c' = c then dispatchEvents c' else [] := by
  cases c <;> cases c' <;> decide

theorem purgeKind_idem {α : Type} (l : List (α × ℚ)) (now L : ℚ) :
    purgeKind (purgeKind l now L) now L = purgeKind l now L := by
  simp [purgeKind, List.filter_filter]

theorem mem_purgeKind {α : Type} (l : List (α × ℚ)) (x : α × ℚ) (now L : ℚ) :
    x ∈ purgeKind l now L ↔ x ∈ l ∧ now - x.2 < L := by
  simp [purgeKind, List.mem_filter]

/-- The inductive invariant of the scheduler: the ghost count of
outstanding inference jobs agrees with occupancy of the
`inference_future` slot. -/
def goodLoop (s : LoopState) : Prop :=
  s.outstanding = if s.inference_future.isSome then 1 else 0

theorem collectPhase_good (s : LoopState) (p : JobPoll) (h : goodLoop s) :
    goodLoop (collectPhase s p) := by
  unfold goodLoop at *
  unfold collectPhase
  cases hs : s.inference_future <;> cases p <;> simp_all

theorem submitPhase_good (s : LoopState) (h : goodLoop s) :
    goodLoop (submitPhase s) := by
  unfold goodLoop at *
  unfold submitPhase
  cases hs : s.inference_future <;> simp_all

theorem loopTick_good (s : LoopState) (p : JobPoll) (h : goodLoop s) :
    goodLoop (loopTick s p) := by
  unfold loopTick
  split
  · exact submitPhase_good _ (collectPhase_good _ _ h)
  · exact h

theorem foldl_loopTick_good (polls : List JobPoll) (s : LoopState)
    (h : goodLoop s) : goodLoop (polls.foldl loopTick s) := by
  induction polls generalizing s with
  | nil => exact h
  | cons p ps ih => exact ih _ (loopTick_good s p h)

theorem runLoop_good (polls : List JobPoll) : goodLoop (runLoop polls) :=
  foldl_loopTick_good polls initLoop rfl

/-- A single-weapon detection bundle. -/
def weaponBundle : Results := ⟨[⟨0.9⟩], [], []⟩

/-- A bundle with `n` person detections and nothing else. -/
def crowdBundle (n : Nat) : Results := ⟨[], List.replicate n ⟨0.9⟩, []⟩

/-- A bundle with one angry face of confidence `c` and nothing else. -/
def faceBundle (c : ℚ) : Results := ⟨[], [], [⟨"angry", c⟩]⟩

theorem categoryEvents_other {c c' : Category} (h : c' ≠ c) (l : List Event)
    (hl : l = [] ∨ l = dispatchEvents c') : categoryEvents c l = [] := by
  rcases hl with h1 | h1 <;> subst h1
  · rfl
  · rw [categoryEvents_dispatchEvents]
    exact if_neg h

theorem categoryEvents_own (c : Category) (l : List Event)
    (hl : l = [] ∨ l = dispatchEvents c) : categoryEvents c l = l := by
  rcases hl with h1 | h1 <;> subst h1
  · rfl
  · rw [categoryEvents_dispatchEvents]
    exact if_pos rfl

theorem weaponBranch_snd_shape (s : SysState) (r : Results) (now : ℚ) :
    (weaponBranch s r now).2 = [] ∨
    (weaponBranch s r now).2 = dispatchEvents Category.weapon := by
  simp only [weaponBranch]
  split_ifs <;> simp

theorem crowdBranch_snd_shape (s : SysState) (r : Results) (now : ℚ) :
    (crowdBranch s r now).2 = [] ∨
    (crowdBranch s r now).2 = dispatchEvents Category.crowd := by
  simp only [crowdBranch]
  split_ifs <;> simp

theorem behaviorBranch_snd_shape (s : SysState) (r : Results) (now : ℚ) :
    (behaviorBranch s r now).2 = [] ∨
    (behaviorBranch s r now).2 = dispatchEvents Category.behavior := by
  simp only [behaviorBranch]
  split_ifs <;> simp

theorem weaponBranch_fst_preserves (s : SysState) (r : Results) (now : ℚ) :
    (weaponBranch s r now).1.last_alert_time.crowd = s.last_alert_time.crowd ∧
    (weaponBranch s r now).1.last_alert_time.behavior = s.last_alert_time.behavior ∧
    (weaponBranch s r now).1.alert_cooldown = s.alert_cooldown := by
  simp only [weaponBranch]
  split_ifs <;> simp

theorem crowdBranch_fst_preserves (s : SysState) (r : Results) (now : ℚ) :
    (crowdBranch s r now).1.weapon_confirm = s.weapon_confirm ∧
    (crowdBranch s r now).1.last_alert_time.weapon = s.last_alert_time.weapon ∧
    (crowdBranch s r now).1.last_alert_time.behavior = s.last_alert_time.behavior ∧
    (crowdBranch s r now).1.alert_cooldown = s.alert_cooldown := by
  simp only [crowdBranch]
  split_ifs <;> simp

theorem behaviorBranch_fst_preserves (s : SysState) (r : Results) (now : ℚ) :
    (behaviorBranch s r now).1.weapon_confirm = s.weapon_confirm ∧
    (behaviorBranch s r now).1.last_alert_time.weapon = s.last_alert_time.weapon ∧
    (behaviorBranch s r now).1.last_alert_time.crowd = s.last_alert_time.crowd ∧
    (behaviorBranch s r now).1.alert_cooldown = s.alert_cooldown := by
  simp only [behaviorBranch]
  split_ifs <;> simp

theorem weaponBranch_events (s : SysState) (r : Results) (now : ℚ) :
    (weaponBranch s r now).2 =
      if r.weapons.length ≠ 0 ∧ (weaponStep s.weapon_confirm now).count ≥ 2 ∧
         cooldown_ok s.last_alert_time.weapon now s.alert_cooldown = true
      then dispatchEvents Category.weapon else [] := by
  simp only [weaponBranch]
  split_ifs <;> simp_all

theorem weaponBranch_fst_weapon (s : SysState) (r : Results) (now : ℚ) :
    (weaponBranch s r now).1.last_alert_time.weapon =
      if r.weapons.length ≠ 0 ∧ (weaponStep s.weapon_confirm now).count ≥ 2 ∧
         cooldown_ok s.last_alert_time.weapon now s.alert_cooldown = true
      then some now else s.last_alert_time.weapon := by
  simp only [weaponBranch]
  split_ifs <;> simp_all

theorem crowdBranch_events (s : SysState) (r : Results) (now : ℚ) :
    (crowdBranch s r now).2 =
      if r.people.length > 5 ∧
         cooldown_ok s.last_alert_time.crowd now s.alert_cooldown = true
      then dispatchEvents Category.crowd else [] := by
  simp only [crowdBranch]
  split_ifs <;> simp_all

theorem crowdBranch_fst_crowd (s : SysState) (r : Results) (now : ℚ) :
    (crowdBranch s r now).1.last_alert_time.crowd =
      if r.people.length > 5 ∧
         cooldown_ok s.last_alert_time.crowd now s.alert_cooldown = true
      then some now else s.last_alert_time.crowd := by
  simp only [crowdBranch]
  split_ifs <;> simp_all

theorem behaviorBranch_events (s : SysState) (r : Results) (now : ℚ) :
    (behaviorBranch s r now).2 =
      if (suspicious_faces r).length ≠ 0 ∧
         cooldown_ok s.last_alert_time.behavior now s.alert_cooldown = true
      then dispatchEvents Category.behavior else [] := by
  simp only [behaviorBranch]
  split_ifs <;> simp_all

theorem behaviorBranch_fst_behavior (s : SysState) (r : Results) (now : ℚ) :
    (behaviorBranch s r now).1.last_alert_time.behavior =
      if (suspicious_faces r).length ≠ 0 ∧
         cooldown_ok s.last_alert_time.behavior now s.alert_cooldown = true
      then some now else s.last_alert_time.behavior := by
  simp only [behaviorBranch]
  split_ifs <;> simp_all

theorem handle_events_weapon (s : SysState) (r : Results) (now : ℚ) :
    categoryEvents Category.weapon (handle_threat_detection s r now).2 =
      (weaponBranch s r now).2 := by
  unfold handle_threat_detection
  rw [categoryEvents_append, categoryEvents_append]
  rw [categoryEvents_own _ _ (weaponBranch_snd_shape s r now),
      categoryEvents_other (by decide) _ (crowdBranch_snd_shape _ r now),
      categoryEvents_other (by decide) _ (behaviorBranch_snd_shape _ r now)]
  simp

theorem handle_events_crowd (s : SysState) (r : Results) (now : ℚ) :
    categoryEvents Category.crowd (handle_threat_detection s r now).2 =
      (crowdBranch (weaponBranch s r now).1 r now).2 := by
  unfold handle_threat_detection
  rw [categoryEvents_append, categoryEvents_append]
  rw [categoryEvents_other (by decide) _ (weaponBranch_snd_shape s r now),
      categoryEvents_own _ _ (crowdBranch_snd_shape _ r now),
      categoryEvents_other (by decide) _ (behaviorBranch_snd_shape _ r now)]
  simp

theorem handle_events_behavior (s : SysState) (r : Results) (now : ℚ) :
    categoryEvents Category.behavior (handle_threat_detection s r now).2 =
      (behaviorBranch (crowdBranch (weaponBranch s r now).1 r now).1 r now).2 := by
  unfold handle_threat_detection
  rw [categoryEvents_append, categoryEvents_append]
  rw [categoryEvents_other (by decide) _ (weaponBranch_snd_shape s r now),
      categoryEvents_other (by decide) _ (crowdBranch_snd_shape _ r now),
      categoryEvents_own _ _ (behaviorBranch_snd_shape _ r now)]
  simp

/-! ## Claims -/

/-- C3: at-most-one-inflight inference.  Along every sequence of
`video_loop` iterations (hence at every point of every run, since every
prefix of a run is itself a run), at most one inference job is
outstanding; a busy slot is never resubmitted (`submitPhase` is the
identity when `inference_future` is occupied); and whenever the
outstanding job polls as done — normally or with an exception — the slot
is cleared by the collection phase before the submission phase runs. -/
theorem at_most_one_inflight :
    (∀ polls : List JobPoll, (runLoop polls).outstanding ≤ 1) ∧
    (∀ s : LoopState, s.inference_future ≠ none → submitPhase s = s) ∧
    (∀ (s : LoopState) (p : JobPoll), s.inference_future ≠ none →
      p ≠ JobPoll.notDone → (collectPhase s p).inference_future = none) := by
  refine ⟨fun polls => ?_, fun s h => ?_, fun s p h hp => ?_⟩
  · have hg := runLoop_good polls
    unfold goodLoop at hg
    split at hg <;> omega
  · unfold submitPhase
    cases hs : s.inference_future with
    | none => exact absurd hs h
    | some j => rfl
  · unfold collectPhase
    cases hs : s.inference_future <;> cases p <;> simp_all

/-- Witness for C3 at a concrete run and a concrete busy state. -/
theorem at_most_one_inflight_witness :
    (runLoop [JobPoll.notDone, JobPoll.doneOk, JobPoll.notDone]).outstanding ≤ 1 ∧
    submitPhase ⟨4, some (), 1⟩ = ⟨4, some (), 1⟩ ∧
    (collectPhase ⟨4, some (), 1⟩ JobPoll.doneError).inference_future = none :=
  ⟨at_most_one_inflight.1 _,
   at_most_one_inflight.2.1 ⟨4, some (), 1⟩ (by decide),
   at_most_one_inflight.2.2 ⟨4, some (), 1⟩ JobPoll.doneError (by decide) (by decide)⟩

/-- C4: persistence-cache expiry boundary.  An entry inserted at time `T`
survives the sweep at time `now` with lifetime `L` exactly when
`now - T < L`; consequently a purged-then-snapshotted cache at any
`now ≥ T + L` no longer holds that entry, and at any `now < T + L` the
snapshot still shows its detection.  Stated for each of the three kinds
of the cache. -/
theorem cache_expiry_boundary :
    (∀ (c : Cache) (d : Detection) (T now L : ℚ),
      ((d, T) ∈ (purgeCache c now L).weapons ↔ (d, T) ∈ c.weapons ∧ now - T < L) ∧
      ((d, T) ∈ (purgeCache c now L).people ↔ (d, T) ∈ c.people ∧ now - T < L)) ∧
    (∀ (c : Cache) (f : Face) (T now L : ℚ),
      ((f, T) ∈ (purgeCache c now L).faces ↔ (f, T) ∈ c.faces ∧ now - T < L)) ∧
    (∀ (c : Cache) (d : Detection) (T now L : ℚ), (d, T) ∈ c.weapons →
      (now ≥ T + L → (d, T) ∉ (purgeCache c now L).weapons) ∧
      (now < T + L → d ∈ snapshotKind (purgeCache c now L).weapons)) := by
  refine ⟨fun c d T now L => ⟨?_, ?_⟩, fun c f T now L => ?_, fun c d T now L hmem => ⟨?_, ?_⟩⟩
  · exact mem_purgeKind c.weapons (d, T) now L
  · exact mem_purgeKind c.people (d, T) now L
  · exact mem_purgeKind c.faces (f, T) now L
  · intro hnow hin
    have := ((mem_purgeKind c.weapons (d, T) now L).1 hin).2
    linarith
  · intro hnow
    have hin : (d, T) ∈ (purgeCache c now L).weapons :=
      (mem_purgeKind c.weapons (d, T) now L).2 ⟨hmem, by linarith⟩
    exact List.mem_map.2 ⟨(d, T), hin, rfl⟩

/-- Witness for C4 at a concrete cache: one weapon entry inserted at
`T = 0` with lifetime `L = 4`, purged at `now = 5` (gone) and at
`now = 3` (still rendered). -/
theorem cache_expiry_boundary_witness :
    ((⟨0.9⟩, 0) ∉ (purgeCache ⟨[(⟨0.9⟩, 0)], [], []⟩ 5 4).weapons) ∧
    (⟨0.9⟩ : Detection) ∈ snapshotKind (purgeCache ⟨[(⟨0.9⟩, 0)], [], []⟩ 3 4).weapons :=
  ⟨(cache_expiry_boundary.2.2 ⟨[(⟨0.9⟩, 0)], [], []⟩ ⟨0.9⟩ 0 5 4 (by decide)).1 (by norm_num),
   (cache_expiry_boundary.2.2 ⟨[(⟨0.9⟩, 0)], [], []⟩ ⟨0.9⟩ 0 3 4 (by decide)).2 (by norm_num)⟩

/-- C9: the per-frame expiry sweep is idempotent — purging twice at the
same `now` with no intervening insertion leaves the cache (and hence the
rendered snapshot) unchanged. -/
theorem purge_expired_idempotent :
    ∀ (c : Cache) (now L : ℚ),
      purgeCache (purgeCache c now L) now L = purgeCache c now L := by
  intro c now L
  simp [purgeCache, purgeKind_idem]

/-- C10: empty-bundle safety.  On the empty detection bundle the threat
check reports no threat, and the dispatcher — even if invoked — emits no
event of any category and leaves the confirmation and cooldown state
untouched (it is a total function, so it cannot throw). -/
theorem empty_bundle_safety :
    has_threats emptyResults = false ∧
    ∀ (s : SysState) (now : ℚ),
      handle_threat_detection s emptyResults now = (s, []) := by
  refine ⟨by decide, fun s now => ?_⟩
  simp [handle_threat_detection, weaponBranch, crowdBranch, behaviorBranch,
    suspicious_faces, emptyResults]

/-- Bridging lemma: the dispatcher's behavior gate is nonempty exactly
when some face is suspicious with confidence strictly above `0.8`. -/
theorem suspicious_faces_present (r : Results) :
    (suspicious_faces r).length ≠ 0 ↔
      ∃ f ∈ r.faces, suspiciousEmotion f = true ∧ f.confidence > (0.8 : ℚ) := by
  rw [Ne, List.length_eq_zero]
  unfold suspicious_faces
  rw [List.filter_eq_nil_iff]
  push_neg
  simp [Bool.and_eq_true, decide_eq_true_iff]

theorem handle_fst_weapon (s : SysState) (r : Results) (now : ℚ) :
    (handle_threat_detection s r now).1.last_alert_time.weapon =
      (weaponBranch s r now).1.last_alert_time.weapon := by
  simp only [handle_threat_detection]
  rw [(behaviorBranch_fst_preserves _ r now).2.1,
      (crowdBranch_fst_preserves _ r now).2.1]

theorem handle_fst_crowd (s : SysState) (r : Results) (now : ℚ) :
    (handle_threat_detection s r now).1.last_alert_time.crowd =
      (crowdBranch (weaponBranch s r now).1 r now).1.last_alert_time.crowd := by
  simp only [handle_threat_detection]
  rw [(behaviorBranch_fst_preserves _ r now).2.2.1]

theorem handle_fst_behavior (s : SysState) (r : Results) (now : ℚ) :
    (handle_threat_detection s r now).1.last_alert_time.behavior =
      (behaviorBranch (crowdBranch (weaponBranch s r now).1 r now).1 r
          now).1.last_alert_time.behavior := by
  simp only [handle_threat_detection]

/-- C1: weapon-confirmation debounce.  On any cycle whose bundle contains
a weapon, the confirmation state is updated by resetting the count to 0
when more than the 2.0 s window passed since `last_time`, then
incrementing it and stamping `last_time := now`; a weapon alert is
emitted only when the incremented count reaches 2.  Concretely, for raw
weapon observations at `t = 0, 0.5, 5.0` from the initial state: after
`t1` the count is 1 and nothing fires; at `t2` the count reaches 2 and
the weapon alert fires; at `t3` the count has reset back to 1 and
nothing fires. -/
theorem weapon_confirmation_debounce :
    (∀ (s : SysState) (r : Results) (now : ℚ), r.weapons.length ≠ 0 →
      weaponStep s.weapon_confirm now =
        ⟨(if now - s.weapon_confirm.last_time > 2 then 0
          else s.weapon_confirm.count) + 1, now⟩ ∧
      (categoryEvents Category.weapon (handle_threat_detection s r now).2 ≠ [] →
        (weaponStep s.weapon_confirm now).count ≥ 2)) ∧
    ((handle_threat_detection initState weaponBundle 0).1.weapon_confirm.count = 1 ∧
     (handle_threat_detection initState weaponBundle 0).2 = [] ∧
     (weaponStep (handle_threat_detection initState weaponBundle
         0).1.weapon_confirm (0.5 : ℚ)).count = 2 ∧
     (handle_threat_detection (handle_threat_detection initState weaponBundle
         0).1 weaponBundle (0.5 : ℚ)).2 = dispatchEvents Category.weapon ∧
     (handle_threat_detection (handle_threat_detection (handle_threat_detection
         initState weaponBundle 0).1 weaponBundle (0.5 : ℚ)).1 weaponBundle
         5).1.weapon_confirm.count = 1 ∧
     (handle_threat_detection (handle_threat_detection (handle_threat_detection
         initState weaponBundle 0).1 weaponBundle (0.5 : ℚ)).1 weaponBundle
         5).2 = []) := by
  constructor
  · intro s r now hw
    constructor
    · simp only [weaponStep]
      split_ifs <;> rfl
    · intro hne
      rw [handle_events_weapon, weaponBranch_events] at hne
      split_ifs at hne with h
      · exact h.2.1
      · exact absurd rfl hne
  · decide

/-- Witness for C1 at a concrete dispatching cycle: one prior
confirmation at `t = 0`, a weapon bundle at `t = 0.5`. -/
theorem weapon_confirmation_debounce_witness :
    (weaponStep (SysState.mk ⟨1, 0⟩ ⟨none, none, none⟩ 2).weapon_confirm
        (0.5 : ℚ)).count ≥ 2 :=
  ((weapon_confirmation_debounce.1 ⟨⟨1, 0⟩, ⟨none, none, none⟩, 2⟩ weaponBundle
      (0.5 : ℚ) (by decide)).2) (by decide)

/-- C2 counterexample: with `alert_cooldown = 2` and a crowd alert last
dispatched at `t = 0`, a confirmed crowd signal at exactly `t = 2`
(so `now - last_alert_time = alert_cooldown`) is dropped with no events
and no state change, even though `now - last_alert_time < alert_cooldown`
does not hold — refuting "dropped exactly when
`now - last_alert_time < alert_cooldown`" and "at the exact boundary the
signal is not dropped". -/
theorem alert_cooldown_boundary_counterexample :
    handle_threat_detection ⟨⟨0, 0⟩, ⟨none, some 0, none⟩, 2⟩ (crowdBundle 6) 2 =
      (⟨⟨0, 0⟩, ⟨none, some 0, none⟩, 2⟩, []) ∧
    ¬((2 : ℚ) - 0 < 2) := by
  decide

/-- C2 (amended): a confirmed signal of a category is dropped (no
`log_detection`, no beep, no email of that category, and that category's
`last_alert_time` unchanged) exactly when the category has a recorded
`last_alert_time` and `now - last_alert_time ≤ alert_cooldown` — boundary
included; otherwise it dispatches once and sets
`last_alert_time := now`.  The scenario stands: with cooldown 2.0,
confirmed signals at `t = 0` and `t = 1.0` produce exactly one dispatch,
and a third at `t = 2.1` dispatches again. -/
theorem alert_cooldown_semantics :
    (∀ (last : Option ℚ) (now cd : ℚ),
      cooldown_ok last now cd = false ↔ ∃ t, last = some t ∧ now - t ≤ cd) ∧
    (∀ (s : SysState) (r : Results) (now : ℚ),
      r.weapons.length ≠ 0 → (weaponStep s.weapon_confirm now).count ≥ 2 →
      (cooldown_ok s.last_alert_time.weapon now s.alert_cooldown = true →
        categoryEvents Category.weapon (handle_threat_detection s r now).2 =
          dispatchEvents Category.weapon ∧
        (handle_threat_detection s r now).1.last_alert_time.weapon = some now) ∧
      (cooldown_ok s.last_alert_time.weapon now s.alert_cooldown = false →
        categoryEvents Category.weapon (handle_threat_detection s r now).2 = [] ∧
        (handle_threat_detection s r now).1.last_alert_time.weapon =
          s.last_alert_time.weapon)) ∧
    (∀ (s : SysState) (r : Results) (now : ℚ),
      r.people.length > 5 →
      (cooldown_ok s.last_alert_time.crowd now s.alert_cooldown = true →
        categoryEvents Category.crowd (handle_threat_detection s r now).2 =
          dispatchEvents Category.crowd ∧
        (handle_threat_detection s r now).1.last_alert_time.crowd = some now) ∧
      (cooldown_ok s.last_alert_time.crowd now s.alert_cooldown = false →
        categoryEvents Category.crowd (handle_threat_detection s r now).2 = [] ∧
        (handle_threat_detection s r now).1.last_alert_time.crowd =
          s.last_alert_time.crowd)) ∧
    (∀ (s : SysState) (r : Results) (now : ℚ),
      (suspicious_faces r).length ≠ 0 →
      (cooldown_ok s.last_alert_time.behavior now s.alert_cooldown = true →
        categoryEvents Category.behavior (handle_threat_detection s r now).2 =
          dispatchEvents Category.behavior ∧
        (handle_threat_detection s r now).1.last_alert_time.behavior = some now) ∧
      (cooldown_ok s.last_alert_time.behavior now s.alert_cooldown = false →
        categoryEvents Category.behavior (handle_threat_detection s r now).2 = [] ∧
        (handle_threat_detection s r now).1.last_alert_time.behavior =
          s.last_alert_time.behavior)) ∧
    ((handle_threat_detection initState (crowdBundle 6) 0).2 =
        dispatchEvents Category.crowd ∧
     (handle_threat_detection (handle_threat_detection initState (crowdBundle 6)
         0).1 (crowdBundle 6) 1).2 = [] ∧
     (handle_threat_detection (handle_threat_detection (handle_threat_detection
         initState (crowdBundle 6) 0).1 (crowdBundle 6) 1).1 (crowdBundle 6)
         (2.1 : ℚ)).2 = dispatchEvents Category.crowd) := by
  refine ⟨fun last now cd => ?_, fun s r now hw hc => ⟨fun hcd => ?_, fun hcd => ?_⟩,
    fun s r now h5 => ⟨fun hcd => ?_, fun hcd => ?_⟩,
    fun s r now hb => ⟨fun hcd => ?_, fun hcd => ?_⟩, by decide⟩
  · cases last with
    | none => simp [cooldown_ok]
    | some t => simp [cooldown_ok, not_lt]
  · rw [handle_events_weapon, weaponBranch_events, handle_fst_weapon,
      weaponBranch_fst_weapon]
    exact ⟨if_pos ⟨hw, hc, hcd⟩, if_pos ⟨hw, hc, hcd⟩⟩
  · rw [handle_events_weapon, weaponBranch_events, handle_fst_weapon,
      weaponBranch_fst_weapon]
    have hnc : ¬(r.weapons.length ≠ 0 ∧
        (weaponStep s.weapon_confirm now).count ≥ 2 ∧
        cooldown_ok s.last_alert_time.weapon now s.alert_cooldown = true) := by
      intro h
      rw [h.2.2] at hcd
      simp at hcd
    exact ⟨if_neg hnc, if_neg hnc⟩
  · have hp := weaponBranch_fst_preserves s r now
    rw [handle_events_crowd, crowdBranch_events, handle_fst_crowd,
      crowdBranch_fst_crowd, hp.1, hp.2.2]
    exact ⟨if_pos ⟨h5, hcd⟩, if_pos ⟨h5, hcd⟩⟩
  · have hp := weaponBranch_fst_preserves s r now
    rw [handle_events_crowd, crowdBranch_events, handle_fst_crowd,
      crowdBranch_fst_crowd, hp.1, hp.2.2]
    have hnc : ¬(r.people.length > 5 ∧
        cooldown_ok s.last_alert_time.crowd now s.alert_cooldown = true) := by
      intro h
      rw [h.2] at hcd
      simp at hcd
    exact ⟨if_neg hnc, if_neg hnc⟩
  · have hpw := weaponBranch_fst_preserves s r now
    have hpc := crowdBranch_fst_preserves (weaponBranch s r now).1 r now
    rw [handle_events_behavior, behaviorBranch_events, handle_fst_behavior,
      behaviorBranch_fst_behavior, hpc.2.2.1, hpc.2.2.2, hpw.2.1, hpw.2.2]
    exact ⟨if_pos ⟨hb, hcd⟩, if_pos ⟨hb, hcd⟩⟩
  · have hpw := weaponBranch_fst_preserves s r now
    have hpc := crowdBranch_fst_preserves (weaponBranch s r now).1 r now
    rw [handle_events_behavior, behaviorBranch_events, handle_fst_behavior,
      behaviorBranch_fst_behavior, hpc.2.2.1, hpc.2.2.2, hpw.2.1, hpw.2.2]
    have hnc : ¬((suspicious_faces r).length ≠ 0 ∧
        cooldown_ok s.last_alert_time.behavior now s.alert_cooldown = true) := by
      intro h
      rw [h.2] at hcd
      simp at hcd
    exact ⟨if_neg hnc, if_neg hnc⟩

/-- Witness for C2 (amended) at concrete inputs: a crowd drop at the
cooldown boundary and a crowd dispatch after it. -/
theorem alert_cooldown_semantics_witness :
    (cooldown_ok (some 0) 2 2 = false ↔ ∃ t, (some 0 : Option ℚ) = some t ∧ (2 : ℚ) - t ≤ 2) ∧
    (categoryEvents Category.crowd (handle_threat_detection
        ⟨⟨0, 0⟩, ⟨none, some 0, none⟩, 2⟩ (crowdBundle 6) 2).2 = [] ∧
     (handle_threat_detection ⟨⟨0, 0⟩, ⟨none, some 0, none⟩, 2⟩ (crowdBundle 6)
        2).1.last_alert_time.crowd = some 0) :=
  ⟨alert_cooldown_semantics.1 (some 0) 2 2,
   (alert_cooldown_semantics.2.2.1 ⟨⟨0, 0⟩, ⟨none, some 0, none⟩, 2⟩
      (crowdBundle 6) 2 (by decide)).2 (by decide)⟩

/-- C6: crowd threshold is strictly greater-than.  A crowd alert is
dispatched exactly when the bundle has strictly more than 5 person
detections and the crowd cooldown allows it; 5 people trigger nothing
(not even the threat flag), 6 people trigger it. -/
theorem crowd_threshold_strict :
    (∀ (s : SysState) (r : Results) (now : ℚ),
      categoryEvents Category.crowd (handle_threat_detection s r now).2 ≠ [] ↔
        r.people.length > 5 ∧
        cooldown_ok s.last_alert_time.crowd now s.alert_cooldown = true) ∧
    has_threats (crowdBundle 5) = false ∧
    has_threats (crowdBundle 6) = true ∧
    (handle_threat_detection initState (crowdBundle 5) 0).2 = [] ∧
    (handle_threat_detection initState (crowdBundle 6) 0).2 =
      dispatchEvents Category.crowd := by
  refine ⟨fun s r now => ?_, by decide, by decide, by decide, by decide⟩
  have hp := weaponBranch_fst_preserves s r now
  rw [handle_events_crowd, crowdBranch_events, hp.1, hp.2.2]
  split_ifs with h
  · simp [dispatchEvents, h]
  · simp [h]

/-- C7 counterexample: a face whose suspicious-emotion confidence equals
the dispatcher's threshold exactly (`0.8`) triggers no behavior alert
even from a fresh state with no cooldown pending (the dispatcher returns
unchanged state and an empty event trace), and a face at exactly the
`has_threats` threshold `0.7` is not even flagged as a threat — refuting
"confidence greater than or equal to the threshold triggers". -/
theorem emotion_threshold_counterexample :
    handle_threat_detection initState (faceBundle (0.8 : ℚ)) 0 = (initState, []) ∧
    has_threats (faceBundle (0.7 : ℚ)) = false := by
  decide

/-- C7 (amended): the emotion-confidence thresholds are strict.  A
behavior alert is dispatched exactly when some face has a suspicious
dominant emotion with confidence strictly greater than `0.8` and the
behavior cooldown allows it; confidence equal to the threshold does not
trigger, while any strictly larger confidence does. -/
theorem emotion_threshold_strict :
    (∀ (s : SysState) (r : Results) (now : ℚ),
      categoryEvents Category.behavior (handle_threat_detection s r now).2 ≠ [] ↔
        (∃ f ∈ r.faces, suspiciousEmotion f = true ∧ f.confidence > (0.8 : ℚ)) ∧
        cooldown_ok s.last_alert_time.behavior now s.alert_cooldown = true) ∧
    (handle_threat_detection initState (faceBundle (0.81 : ℚ)) 0).2 =
      dispatchEvents Category.behavior ∧
    has_threats (faceBundle (0.71 : ℚ)) = true := by
  refine ⟨fun s r now => ?_, by decide, by decide⟩
  have hpw := weaponBranch_fst_preserves s r now
  have hpc := crowdBranch_fst_preserves (weaponBranch s r now).1 r now
  rw [handle_events_behavior, behaviorBranch_events, hpc.2.2.1, hpc.2.2.2,
    hpw.2.1, hpw.2.2, ← suspicious_faces_present]
  split_ifs with h
  · exact iff_of_true (by decide) h
  · exact iff_of_false (fun hx => hx rfl) h

/-- C8: the behavior gate mismatch.  For any bundle whose only threat
indicator is suspicious faces with confidence in the half-open interval
`(0.7, 0.8]` (no weapons, at most 5 people), `has_threats` reports a
threat — so `video_loop` invokes the dispatcher — yet the dispatcher
fires no alert of any category: no log, no beep, no email, and the
entire dispatcher state (confirmation and every `last_alert_time`) is
returned unchanged. -/
theorem behavior_gate_mismatch :
    ∀ (r : Results) (s : SysState) (now : ℚ),
      r.weapons = [] →
      r.people.length ≤ 5 →
      (∃ f ∈ r.faces, suspiciousEmotion f = true ∧ f.confidence > (0.7 : ℚ)) →
      (∀ f ∈ r.faces, f.confidence ≤ (0.8 : ℚ)) →
      has_threats r = true ∧
      handle_threat_detection s r now = (s, []) := by
  intro r s now hw hp hex hall
  obtain ⟨f, hfmem, hfe, hfc⟩ := hex
  have h5 : ¬(r.people.length > 5) := by omega
  have hsf : suspicious_faces r = [] := by
    unfold suspicious_faces
    rw [List.filter_eq_nil_iff]
    intro g hg
    have := hall g hg
    simp only [Bool.and_eq_true, decide_eq_true_iff, not_and]
    intro _
    intro hgt
    exact absurd this (not_le.2 hgt)
  constructor
  · simp only [has_threats, Bool.or_eq_true, List.any_eq_true]
    right
    exact ⟨f, hfmem, by simp [hfe, decide_eq_true_iff, hfc]⟩
  · simp [handle_threat_detection, weaponBranch, crowdBranch, behaviorBranch,
      hw, hsf, h5]

/-- Witness for C8: one angry face at confidence 0.75 — flagged as a
threat, but the dispatcher does nothing. -/
theorem behavior_gate_mismatch_witness :
    has_threats (faceBundle (0.75 : ℚ)) = true ∧
    handle_threat_detection initState (faceBundle (0.75 : ℚ)) 0 =
      (initState, []) :=
  behavior_gate_mismatch (faceBundle (0.75 : ℚ)) initState 0 (by decide)
    (by decide) (by decide) (by decide)

/-- C5: the email-sent flag is NOT marked only on success.  Evaluating
the `send_email` control flow: with the app password unconfigured the
attempt aborts, yet `mark_email_sent` is still called (while the
`emails_sent` statistic — incremented only on the success path — is not);
the same happens on an SMTP authentication failure and on any other
login error.  Only a `sendmail` transport failure leaves the record
unmarked; a successful send marks it. -/
theorem email_sent_flag_bug :
    (send_email ⟨"user@example.com", "", LoginResult.ok, true⟩).outcome =
      EmailOutcome.noPassword ∧
    (send_email ⟨"user@example.com", "", LoginResult.ok, true⟩).marked_email_sent = true ∧
    (send_email ⟨"user@example.com", "", LoginResult.ok, true⟩).stats_incremented = false ∧
    (send_email ⟨"", "secret", LoginResult.ok, true⟩).marked_email_sent = true ∧
    (send_email ⟨"user@example.com", "secret", LoginResult.authError, true⟩).marked_email_sent = true ∧
    (send_email ⟨"user@example.com", "secret", LoginResult.otherError, true⟩).marked_email_sent = true ∧
    (send_email ⟨"user@example.com", "secret", LoginResult.ok, false⟩).marked_email_sent = false ∧
    (send_email ⟨"user@example.com", "secret", LoginResult.ok, true⟩).marked_email_sent = true := by
  decide

end Surveillance
